import Mathlib

/-!
# Verification of `iseven-api-rust` (`src/lib.rs`)

Shallow embedding of the isEven API client library. The library wraps one
HTTP endpoint; its core logic is `parse_response`, which turns an HTTP
status code plus an untagged JSON payload (success shape
`{"ad": string, "iseven": bool}` versus error shape `{"error": string}`)
into either a success value or one of four classified errors.

Modelling conventions:
* JSON bodies are values of the inductive `Json`; a JSON object is its
  field list in wire order.
* serde's untagged deserialization of `IsEvenResponseType` is modelled by
  `deserIsEvenResponseType`: try the success struct first, fall back to
  the error struct (serde tries variants in declaration order).
* serde struct deserialization (`deserIsEvenApiResponse`,
  `deserIsEvenApiErrorResponse`) requires each declared field to occur
  exactly once with the right type (serde errors on a missing field, a
  type mismatch and a duplicate of a known field) and ignores unknown
  fields.
* The HTTP transport (reqwest) is a parameter: a function
  `net : String → TransportOutcome` from the request URL to what the wire
  produced (send failure, or a status code plus a body).  Rust `Result`
  is `Except`; a Rust panic (process abort) is `Option.none` in the model
  of the convenience functions.
* `StatusCode` is modelled as its `as_u16` value, a `Nat`.
-/

/-- JSON values, as far as the API bodies need them. -/
inductive Json where
  | null
  | bool (b : Bool)
  | num (n : Int)
  | str (s : String)
  | obj (fields : List (String × Json))

/-- The success response struct of `src/lib.rs` (`IsEvenApiResponse`):
fields `ad : String` and `iseven : bool`. -/
structure IsEvenApiResponse where
  ad : String
  iseven : Bool
deriving DecidableEq, Repr

/-- `IsEvenApiResponse::isodd`: `!self.iseven()`. -/
def IsEvenApiResponse.isodd (r : IsEvenApiResponse) : Bool :=
  !r.iseven

/-- `impl Display for IsEvenApiResponse`: writes `"even"` if `iseven`
else `"odd"`. -/
def IsEvenApiResponse.fmt (r : IsEvenApiResponse) : String :=
  if r.iseven then "even" else "odd"

/-- The error response struct (`IsEvenApiErrorResponse`): field
`error : String`. -/
structure IsEvenApiErrorResponse where
  error : String
deriving DecidableEq, Repr

/-- Failures of `reqwest` `send()`: no response was received. -/
inductive SendError where
  | connectionRefused
  | timedOut
deriving DecidableEq, Repr

/-- What the wire produced for one request: either `send()` failed, or a
response with a status code and a raw body arrived. -/
inductive Body where
  | malformed (raw : String)
  | json (j : Json)

/-- Outcome of the transport for one request URL. -/
inductive TransportOutcome where
  | sendFailure (e : SendError)
  | response (status : Nat) (body : Body)

/-- `reqwest::Error`, the cause wrapped by `NetworkError`: either a
request/send failure or a `.json()` decode failure on the given body. -/
inductive ReqwestError where
  | request (e : SendError)
  | decode (body : Body)

/-- The caller-facing error enum `IsEvenApiError` of `src/lib.rs`. -/
inductive IsEvenApiError where
  | NumberOutOfRange (e : IsEvenApiErrorResponse)
  | InvalidNumber (e : IsEvenApiErrorResponse)
  | UnknownErrorResponse (e : IsEvenApiErrorResponse) (status : Nat)
  | NetworkError (cause : ReqwestError)

/-- The untagged serde enum `IsEvenResponseType` of `src/lib.rs`. -/
inductive IsEvenResponseType where
  | Ok (r : IsEvenApiResponse)
  | Err (e : IsEvenApiErrorResponse)
deriving DecidableEq, Repr

/-- The field of a JSON object that serde's struct visitor accepts for a
declared key: present exactly once (serde errors on a missing field and on
a duplicate of a known field; unknown fields are ignored). -/
def getUnique (fields : List (String × Json)) (key : String) : Option Json :=
  match fields.filter (fun p => p.1 = key) with
  | [p] => some p.2
  | _ => none

/-- Extract a JSON string (serde type check for a `String` field). -/
def Json.asStr : Json → Option String
  | .str s => some s
  | _ => none

/-- Extract a JSON boolean (serde type check for a `bool` field). -/
def Json.asBool : Json → Option Bool
  | .bool b => some b
  | _ => none

/-- serde deserialization of `IsEvenApiResponse` from a JSON value:
an object with a string field `ad` and a boolean field `iseven`. -/
def deserIsEvenApiResponse : Json → Option IsEvenApiResponse
  | .obj fields => do
      let a ← (← getUnique fields "ad").asStr
      let b ← (← getUnique fields "iseven").asBool
      pure ⟨a, b⟩
  | _ => none

/-- serde deserialization of `IsEvenApiErrorResponse` from a JSON value:
an object with a string field `error`. -/
def deserIsEvenApiErrorResponse : Json → Option IsEvenApiErrorResponse
  | .obj fields => do
      let m ← (← getUnique fields "error").asStr
      pure ⟨m⟩
  | _ => none

/-- serde untagged deserialization of `IsEvenResponseType`
(`#[serde(untagged)]`): try the variants in declaration order, i.e. the
success shape `Ok(IsEvenApiResponse)` first, then the error shape
`Err(IsEvenApiErrorResponse)`; `none` when neither shape matches. -/
def deserIsEvenResponseType (j : Json) : Option IsEvenResponseType :=
  match deserIsEvenApiResponse j with
  | some r => some (.Ok r)
  | none => (deserIsEvenApiErrorResponse j).map .Err

/-- `fn parse_response(json: IsEvenResponseType, status: StatusCode)`
of `src/lib.rs`: a success payload is returned as is; an error payload is
classified by `status.as_u16()`: `400 → InvalidNumber`,
`401 → NumberOutOfRange`, anything else `→ UnknownErrorResponse` with the
status code. -/
def parse_response (json : IsEvenResponseType) (status : Nat) :
    Except IsEvenApiError IsEvenApiResponse :=
  match json with
  | .Ok r => .ok r
  | .Err e =>
    match status with
    | 400 => .error (.InvalidNumber e)
    | 401 => .error (.NumberOutOfRange e)
    | _ => .error (.UnknownErrorResponse e status)

/-- `const API_URL` of `src/lib.rs`. -/
def API_URL : String := "https://api.isevenapi.xyz/api/iseven/"

/-- The `let request_url = format!("{api_url}{num}", ...)` line shared by
both clients: plain concatenation of `API_URL` with the `Display` form of
the number. -/
def request_url (number : String) : String := API_URL ++ number

/-- `Response::json::<IsEvenResponseType>()`: fails with a decode error
when the body is not valid JSON or matches neither untagged variant. -/
def responseJson (body : Body) : Except ReqwestError IsEvenResponseType :=
  match body with
  | .malformed raw => .error (.decode (.malformed raw))
  | .json j =>
    match deserIsEvenResponseType j with
    | some v => .ok v
    | none => .error (.decode (.json j))

/-- `IsEvenApiClient::get` (async client): build the URL, send, and feed
the decoded body plus status to `parse_response`; any `reqwest` error is
converted by `?` into `NetworkError`. -/
def IsEvenApiClient.get (number : String) (net : String → TransportOutcome) :
    Except IsEvenApiError IsEvenApiResponse :=
  match net (request_url number) with
  | .sendFailure e => .error (.NetworkError (.request e))
  | .response status body =>
    match responseJson body with
    | .error e => .error (.NetworkError e)
    | .ok parsed => parse_response parsed status

/-- `IsEvenApiBlockingClient::get` (blocking client): textually the same
steps as the async client with the blocking reqwest client. -/
def IsEvenApiBlockingClient.get (number : String) (net : String → TransportOutcome) :
    Except IsEvenApiError IsEvenApiResponse :=
  match net (request_url number) with
  | .sendFailure e => .error (.NetworkError (.request e))
  | .response status body =>
    match responseJson body with
    | .error e => .error (.NetworkError e)
    | .ok parsed => parse_response parsed status

/-- `pub fn is_even`: `IsEvenApiBlockingClient::new().get(number).unwrap().iseven()`.
The `unwrap` panics (aborts the process) on any error; `Option.none`
models the abort. -/
def is_even (number : String) (net : String → TransportOutcome) : Option Bool :=
  match IsEvenApiBlockingClient.get number net with
  | .ok r => some r.iseven
  | .error _ => none

/-- `pub fn is_odd`: `!is_even(number)` (inherits the panic). -/
def is_odd (number : String) (net : String → TransportOutcome) : Option Bool :=
  (is_even number net).map (fun b => !b)

/-! ## Outcome classification helpers (for the exhaustiveness claim) -/

/-- Is the outcome a `SuccessResult`? -/
def isOkOutcome : Except IsEvenApiError IsEvenApiResponse → Bool
  | .ok _ => true
  | _ => false

/-- Is the outcome the `InvalidNumber` variant (spec: `InvalidInput`)? -/
def isInvalidNumberOutcome : Except IsEvenApiError IsEvenApiResponse → Bool
  | .error (.InvalidNumber _) => true
  | _ => false

/-- Is the outcome the `NumberOutOfRange` variant (spec: `OutOfRange`)? -/
def isNumberOutOfRangeOutcome : Except IsEvenApiError IsEvenApiResponse → Bool
  | .error (.NumberOutOfRange _) => true
  | _ => false

/-- Is the outcome `UnknownErrorResponse` (spec: `UnknownServerError`)? -/
def isUnknownErrorOutcome : Except IsEvenApiError IsEvenApiResponse → Bool
  | .error (.UnknownErrorResponse _ _) => true
  | _ => false

/-- Is the outcome `NetworkError` (spec: `NetworkFailure`)? -/
def isNetworkErrorOutcome : Except IsEvenApiError IsEvenApiResponse → Bool
  | .error (.NetworkError _) => true
  | _ => false

/-- One flag per possible outcome class: success plus the four error
variants of `IsEvenApiError`. -/
def outcomeFlags (r : Except IsEvenApiError IsEvenApiResponse) : List Bool :=
  [isOkOutcome r, isInvalidNumberOutcome r, isNumberOutOfRangeOutcome r,
   isUnknownErrorOutcome r, isNetworkErrorOutcome r]

/-! ## Claims about `parse_response` -/

/-- C1: for every error-shaped payload, `parse_response` classifies by
status code alone: 400 gives `InvalidNumber` (the spec's `InvalidInput`)
carrying the payload, 401 gives `NumberOutOfRange` (the spec's
`OutOfRange`) carrying the payload, and any other status gives
`UnknownErrorResponse` (the spec's `UnknownServerError`) carrying the
payload and the numeric status code unchanged. -/
theorem parse_response_error_classification (e : IsEvenApiErrorResponse)
    (status : Nat) (h400 : status ≠ 400) (h401 : status ≠ 401) :
    parse_response (.Err e) 400 = .error (.InvalidNumber e) ∧
    parse_response (.Err e) 401 = .error (.NumberOutOfRange e) ∧
    parse_response (.Err e) status = .error (.UnknownErrorResponse e status) := by
  refine ⟨rfl, rfl, ?_⟩
  show (match status with
    | 400 => Except.error (IsEvenApiError.InvalidNumber e)
    | 401 => Except.error (IsEvenApiError.NumberOutOfRange e)
    | _ => Except.error (IsEvenApiError.UnknownErrorResponse e status)) =
      Except.error (IsEvenApiError.UnknownErrorResponse e status)
  split
  · omega
  · omega
  · rfl

/-- Witness for C1 at the concrete status code 503. -/
theorem parse_response_error_classification_witness :
    parse_response (.Err ⟨"unknown"⟩) 503 =
      .error (.UnknownErrorResponse ⟨"unknown"⟩ 503) :=
  (parse_response_error_classification ⟨"unknown"⟩ 503
    (by decide) (by decide)).2.2

/-- C2: a body that deserialized as the success shape is returned as a
success by `parse_response` whatever the status code is; the status code
is never consulted on the `Ok` branch. -/
theorem parse_response_success_ignores_status (r : IsEvenApiResponse)
    (status : Nat) :
    parse_response (.Ok r) status = .ok r := rfl

/-- C8: for every parse result and status code, `parse_response` yields
exactly one of the five outcome classes (success or one of the four error
variants): exactly one flag of `outcomeFlags` is set. -/
theorem parse_response_exactly_one_outcome (j : IsEvenResponseType)
    (status : Nat) :
    (outcomeFlags (parse_response j status)).count true = 1 := by
  cases j with
  | Ok r => rfl
  | Err e =>
    show (outcomeFlags (match status with
      | 400 => Except.error (IsEvenApiError.InvalidNumber e)
      | 401 => Except.error (IsEvenApiError.NumberOutOfRange e)
      | _ => Except.error (IsEvenApiError.UnknownErrorResponse e status))).count
        true = 1
    split <;> rfl

/-! ## Claims about the response value type -/

/-- C9: on every success value, `isodd` is the logical negation of
`iseven`. -/
theorem isodd_is_not_iseven (r : IsEvenApiResponse) :
    r.isodd = !r.iseven := rfl

/-- C10: the `Display` implementation writes exactly `"even"` when
`iseven` is true and exactly `"odd"` when it is false, and its output does
not depend on the `ad` field. -/
theorem fmt_even_odd (a a' : String) (b : Bool) :
    IsEvenApiResponse.fmt ⟨a, b⟩ = (if b then "even" else "odd") ∧
    IsEvenApiResponse.fmt ⟨a, b⟩ = IsEvenApiResponse.fmt ⟨a', b⟩ :=
  ⟨rfl, rfl⟩

/-! ## Blocking versus async client -/

/-- C7: for the same number and the same transport behaviour (the same
status code and body, or the same send failure), the async client's `get`
and the blocking client's `get` return structurally identical outcomes. -/
theorem blocking_async_get_agree (number : String)
    (net : String → TransportOutcome) :
    IsEvenApiClient.get number net = IsEvenApiBlockingClient.get number net :=
  rfl

/-! ## Untagged deserialization (C5) -/

/-- `getUnique` sees only the multiset of fields: permuting a JSON
object's field list does not change which value a key resolves to (or
whether resolution fails). -/
theorem getUnique_perm {l₁ l₂ : List (String × Json)} (h : l₁.Perm l₂)
    (key : String) : getUnique l₁ key = getUnique l₂ key := by
  unfold getUnique
  have hp := h.filter (fun p => decide (p.1 = key))
  cases hf1 : List.filter (fun p => decide (p.1 = key)) l₁ with
  | nil =>
    rw [hf1, List.nil_perm] at hp
    rw [hp]
  | cons a t =>
    cases t with
    | nil =>
      rw [hf1] at hp
      have h2 := List.perm_singleton.mp hp.symm
      rw [h2]
    | cons b u =>
      have hlen := hp.length_eq
      rw [hf1] at hlen
      cases hf2 : List.filter (fun p => decide (p.1 = key)) l₂ with
      | nil => rw [hf2] at hlen
      | cons x v =>
        cases v with
        | nil => rw [hf2] at hlen; simp at hlen
        | cons y w => rfl

/-- Permutation invariance lifts to both struct deserializers. -/
theorem deser_structs_perm {l₁ l₂ : List (String × Json)} (h : l₁.Perm l₂) :
    deserIsEvenApiResponse (.obj l₁) = deserIsEvenApiResponse (.obj l₂) ∧
    deserIsEvenApiErrorResponse (.obj l₁) =
      deserIsEvenApiErrorResponse (.obj l₂) := by
  constructor
  · simp only [deserIsEvenApiResponse, getUnique_perm h]
  · simp only [deserIsEvenApiErrorResponse, getUnique_perm h]

/-- C5: untagged deserialization of the outcome envelope attempts the
success shape first (a body that deserializes as `IsEvenApiResponse` is
always reported as the `Ok` variant); it falls back to the error shape
only when the success shape fails (an `Err` result implies the success
deserializer returned `none` — a required field absent, type-mismatched
or duplicated — and the error deserializer succeeded); and the result
depends only on which fields are present, not on their order in the
body. -/
theorem untagged_deser_contract :
    (∀ j r, deserIsEvenApiResponse j = some r →
        deserIsEvenResponseType j = some (.Ok r)) ∧
    (∀ j e, deserIsEvenResponseType j = some (.Err e) →
        deserIsEvenApiResponse j = none ∧
        deserIsEvenApiErrorResponse j = some e) ∧
    (∀ l₁ l₂, l₁.Perm l₂ →
        deserIsEvenResponseType (.obj l₁) = deserIsEvenResponseType (.obj l₂)) := by
  refine ⟨?_, ?_, ?_⟩
  · intro j r h
    unfold deserIsEvenResponseType
    rw [h]
  · intro j e h
    unfold deserIsEvenResponseType at h
    cases hd : deserIsEvenApiResponse j with
    | some r => rw [hd] at h; simp at h
    | none =>
      rw [hd] at h
      cases he : deserIsEvenApiErrorResponse j with
      | none => rw [he] at h; simp at h
      | some e2 =>
        rw [he] at h
        have h2 : e2 = e := by
          have h3 : some (IsEvenResponseType.Err e2) = some (.Err e) := h
          injection h3 with h4
          injection h4
        subst h2
        exact ⟨rfl, rfl⟩
  · intro l₁ l₂ hp
    unfold deserIsEvenResponseType
    rw [(deser_structs_perm hp).1, (deser_structs_perm hp).2]

/-- Witness for C5 on concrete bodies: a success body is taken as `Ok`, a
pure error body falls back to `Err`, and swapping the two success fields
does not change the parse. -/
theorem untagged_deser_contract_witness :
    deserIsEvenResponseType
        (.obj [("ad", .str "A"), ("iseven", .bool true)]) =
      some (.Ok ⟨"A", true⟩) ∧
    (deserIsEvenApiResponse (.obj [("error", .str "boom")]) = none ∧
      deserIsEvenApiErrorResponse (.obj [("error", .str "boom")]) =
        some ⟨"boom"⟩) ∧
    deserIsEvenResponseType
        (.obj [("iseven", .bool true), ("ad", .str "A")]) =
      deserIsEvenResponseType
        (.obj [("ad", .str "A"), ("iseven", .bool true)]) :=
  ⟨untagged_deser_contract.1 _ ⟨"A", true⟩ rfl,
   untagged_deser_contract.2.1 _ ⟨"boom"⟩ rfl,
   untagged_deser_contract.2.2 _ _ (List.Perm.swap _ _ _)⟩

/-! ## Network failures (C6) -/

/-- C6: whenever `send()` fails (no response received), or the body is
not valid JSON, or the body is valid JSON matching neither the success
shape nor the error shape, `get` returns `NetworkError` wrapping exactly
the underlying cause, unreinterpreted. -/
theorem get_network_failure (number : String)
    (net : String → TransportOutcome) :
    (∀ e, net (request_url number) = .sendFailure e →
        IsEvenApiClient.get number net =
          .error (.NetworkError (.request e))) ∧
    (∀ status raw, net (request_url number) = .response status (.malformed raw) →
        IsEvenApiClient.get number net =
          .error (.NetworkError (.decode (.malformed raw)))) ∧
    (∀ status j, net (request_url number) = .response status (.json j) →
        deserIsEvenApiResponse j = none →
        deserIsEvenApiErrorResponse j = none →
        IsEvenApiClient.get number net =
          .error (.NetworkError (.decode (.json j)))) := by
  refine ⟨?_, ?_, ?_⟩
  · intro e he
    unfold IsEvenApiClient.get
    rw [he]
  · intro status raw hr
    unfold IsEvenApiClient.get
    rw [hr]
    rfl
  · intro status j hj hs he
    unfold IsEvenApiClient.get
    rw [hj]
    have hnone : deserIsEvenResponseType j = none := by
      unfold deserIsEvenResponseType
      rw [hs, he]
      rfl
    simp [responseJson, hnone]

/-- Witness for C6: a timeout, a non-JSON body, and a JSON body of
neither shape, each on a concrete network. -/
theorem get_network_failure_witness :
    IsEvenApiClient.get "6" (fun _ => .sendFailure .timedOut) =
      .error (.NetworkError (.request .timedOut)) ∧
    IsEvenApiClient.get "6" (fun _ => .response 200 (.malformed "<html>")) =
      .error (.NetworkError (.decode (.malformed "<html>"))) ∧
    IsEvenApiClient.get "6" (fun _ => .response 200 (.json (.num 5))) =
      .error (.NetworkError (.decode (.json (.num 5)))) :=
  ⟨(get_network_failure "6" _).1 .timedOut rfl,
   (get_network_failure "6" _).2.1 200 "<html>" rfl,
   (get_network_failure "6" _).2.2 200 (.num 5) rfl rfl rfl⟩

/-! ## The panicking convenience functions (C3) -/

/-- A network behaviour on which the underlying call fails: the server
answers status 400 with the error body `{"error": "invalid number"}`. -/
def invalidNumberNet : String → TransportOutcome :=
  fun _ => .response 400 (.json (.obj [("error", .str "invalid number")]))

/-- C3 counterexample: on `invalidNumberNet` the underlying blocking call
fails with a typed error, and `is_even` does not return a value — the
`unwrap` in its body panics, aborting the host process (modelled as
`none`). -/
theorem is_even_aborts_when_call_fails :
    IsEvenApiBlockingClient.get "abc" invalidNumberNet =
      .error (.InvalidNumber ⟨"invalid number"⟩) ∧
    is_even "abc" invalidNumberNet = none :=
  ⟨rfl, rfl⟩

/-- C3 amended: both clients' `get` always return a typed
`Result`-valued outcome (success or classified error) and never abort,
but the convenience functions `is_even` and `is_odd` unwrap that result
and abort the host process (panic, modelled as `none`) exactly when the
underlying call fails, as their documentation states. -/
theorem get_typed_is_even_unwraps (number : String)
    (net : String → TransportOutcome) :
    (∃ r, IsEvenApiBlockingClient.get number net = .ok r ∧
        is_even number net = some r.iseven ∧
        is_odd number net = some (!r.iseven)) ∨
    (∃ e, IsEvenApiBlockingClient.get number net = .error e ∧
        is_even number net = none ∧
        is_odd number net = none) := by
  cases h : IsEvenApiBlockingClient.get number net with
  | ok r =>
    exact Or.inl ⟨r, rfl, by simp [is_even, h], by simp [is_odd, is_even, h]⟩
  | error e =>
    exact Or.inr ⟨e, rfl, by simp [is_even, h], by simp [is_odd, is_even, h]⟩

/-! ## The request URL (C4) -/

/-- Modelled from the spec: the spec describes the request target as the
base endpoint followed by "the URL-encoded textual form of the subject
value".  RFC 3986 unreserved characters (ASCII letters, digits and
`-. _ ~`), which pass through percent-encoding unchanged. -/
def isUnreservedChar (c : Char) : Bool :=
  c.isAlphanum || c = Char.ofNat 45 || c = Char.ofNat 46 ||
    c = Char.ofNat 95 || c = Char.ofNat 126

/-- Modelled from the spec: UTF-8 byte sequence of a Unicode code point,
for percent-encoding non-ASCII characters byte-wise. -/
def utf8ByteList (n : Nat) : List Nat :=
  if n < 128 then [n]
  else if n < 2048 then [192 + n / 64, 128 + n % 64]
  else if n < 65536 then [224 + n / 4096, 128 + n / 64 % 64, 128 + n % 64]
  else [240 + n / 262144, 128 + n / 4096 % 64, 128 + n / 64 % 64, 128 + n % 64]

/-- Modelled from the spec: `%XX` escape of one byte (uppercase hex). -/
def percentEncodeByte (b : Nat) : List Char :=
  let hexDigitChar : Nat → Char := fun k =>
    if k < 10 then Char.ofNat (48 + k) else Char.ofNat (55 + k)
  [Char.ofNat 37, hexDigitChar (b / 16), hexDigitChar (b % 16)]

/-- Modelled from the spec: percent-encode a character list as a URL path
segment — unreserved characters pass through, every other character is
escaped byte-wise. -/
def urlEncodeChars : List Char → List Char
  | [] => []
  | c :: cs =>
    (if isUnreservedChar c then [c]
     else ((utf8ByteList c.toNat).map percentEncodeByte).flatten) ++
      urlEncodeChars cs

/-- Modelled from the spec: "the URL-encoded textual form of the subject
value".  The repository itself contains no encoding step, so this
definition follows the spec's words, for comparison with `request_url`. -/
def urlEncodeSpec (s : String) : String :=
  String.mk (urlEncodeChars s.data)

/-- C4 counterexample: for the subject `"a b"` (a value the CLI can pass
verbatim) the URL built by the code keeps the raw space — it is not the
base endpoint followed by the URL-encoded form `"a%20b"`. -/
theorem request_url_not_urlencoded :
    urlEncodeSpec "a b" = "a%20b" ∧
    request_url "a b" = "https://api.isevenapi.xyz/api/iseven/a b" ∧
    request_url "a b" ≠ API_URL ++ urlEncodeSpec "a b" := by
  refine ⟨by decide, rfl, by decide⟩

/-- Percent-encoding is the identity on lists of unreserved characters. -/
theorem urlEncodeChars_of_unreserved (l : List Char)
    (h : ∀ c ∈ l, isUnreservedChar c = true) :
    urlEncodeChars l = l := by
  induction l with
  | nil => rfl
  | cons c cs ih =>
    unfold urlEncodeChars
    rw [h c (List.mem_cons_self c cs)]
    rw [ih (fun x hx => h x (List.mem_cons_of_mem c hx))]
    rfl

/-- C4 amended: the request URL is the plain `Display` form of the
subject appended to the fixed base endpoint — no URL-encoding, no numeric
validation and no possible error at this layer; for subjects made of
URL-unreserved characters only (every integer's textual form is) this
coincides with the spec's URL-encoded form. -/
theorem request_url_plain_append (number : String)
    (h : ∀ c ∈ number.data, isUnreservedChar c = true) :
    request_url number = "https://api.isevenapi.xyz/api/iseven/" ++ number ∧
    request_url number = API_URL ++ urlEncodeSpec number := by
  refine ⟨rfl, ?_⟩
  show API_URL ++ number = API_URL ++ urlEncodeSpec number
  unfold urlEncodeSpec
  rw [urlEncodeChars_of_unreserved number.data h]

/-- Witness for C4 (amended) at the concrete subject `"42"`. -/
theorem request_url_plain_append_witness :
    request_url "42" = "https://api.isevenapi.xyz/api/iseven/" ++ "42" ∧
    request_url "42" = API_URL ++ urlEncodeSpec "42" :=
  request_url_plain_append "42" (by decide)
